import Mathlib

/-!
Shallow embedding of src/process_data.py (NYC taxi ETL job).

Modelling conventions:
- A dataframe cell is an Option ℚ: some q is a concrete numeric value and
  none is a missing/null value (pandas NaN/NaT).  Timestamps are modelled as
  rational epoch-seconds; pd.to_datetime on an already-typed timestamp column
  is the identity on this representation, and a null stays null (NaT).
- A row is an association list from column names to cells; a DataFrame pairs
  a column schema with a list of rows.  pandas guarantees every row has
  exactly the schema columns; this invariant is DataFrame.Wf below.
- Boolean masks such as df[x] > 0 evaluate to False on null (NaN comparison
  semantics), which the opt* comparison helpers reproduce: a none cell never
  satisfies a filter predicate.
- The surrounding I/O (tfstate lookup, S3 listing, parquet read/write) is
  modelled by an explicit environment record and an Except-valued main, with
  read/write failures as the error channel and all soft stops as ok results.
-/

set_option autoImplicit false

/-- A row of the dataset: an association list from column name to cell value,
where a cell is some rational or none (null). -/
abbrev Row := List (String × Option ℚ)

/-- Value of column c in row r; none when the column is absent or null. -/
def lookupCol : Row → String → Option ℚ
  | [], _ => none
  | (c', v) :: rest, c => if c' = c then v else lookupCol rest c

/-- Column assignment df[c] = v on one row: overwrite the first binding of c
in place, or append the column at the end when absent (pandas semantics). -/
def setCol : Row → String → Option ℚ → Row
  | [], c, v => [(c, v)]
  | (c', v') :: rest, c, v =>
    if c' = c then (c, v) :: rest else (c', v') :: setCol rest c v

/-- Comparison cell > bound: false on null, as for pandas NaN. -/
def optGt (x : Option ℚ) (bound : ℚ) : Bool :=
  match x with
  | some v => decide (bound < v)
  | none => false

/-- Comparison cell >= bound: false on null. -/
def optGe (x : Option ℚ) (bound : ℚ) : Bool :=
  match x with
  | some v => decide (bound ≤ v)
  | none => false

/-- Comparison cell <= bound: false on null. -/
def optLe (x : Option ℚ) (bound : ℚ) : Bool :=
  match x with
  | some v => decide (v ≤ bound)
  | none => false

/-- An in-memory dataset: a column schema and an ordered list of rows. -/
structure DataFrame where
  columns : List String
  rows : List Row
deriving DecidableEq, Repr

/-- Well-formedness, guaranteed by pandas: every row carries exactly the
schema columns, in schema order. -/
def DataFrame.Wf (df : DataFrame) : Prop :=
  ∀ r ∈ df.rows, r.map Prod.fst = df.columns

instance (df : DataFrame) : Decidable df.Wf :=
  inferInstanceAs (Decidable (∀ r ∈ df.rows, r.map Prod.fst = df.columns))

/-- The validity filter implemented at line 68 of process_data.py:
df[(df[trip_distance] > 0) & (df[fare_amount] > 0)]. -/
def validRow (r : Row) : Bool :=
  optGt (lookupCol r "trip_distance") 0 && optGt (lookupCol r "fare_amount") 0

/-- The two validity-filter profiles named by the spec. -/
inductive FilterProfile where
  | primary
  | alternate
deriving DecidableEq, Repr

/-- Modelled from the spec: the primary validity profile
(passenger_count > 0 AND trip_distance > 0) belongs to a pipeline variant of
this repository that is not present under src/; src/process_data.py
implements only the alternate profile (trip_distance > 0 AND
fare_amount > 0), which is taken verbatim from line 68 of the source. -/
def validRowProfile : FilterProfile → Row → Bool
  | .primary, r =>
    optGt (lookupCol r "passenger_count") 0 && optGt (lookupCol r "trip_distance") 0
  | .alternate, r => validRow r

/-- Trip duration in minutes: (dropoff - pickup).dt.total_seconds() / 60,
null when either timestamp is null. -/
def durationOf (r : Row) : Option ℚ :=
  match lookupCol r "tpep_pickup_datetime", lookupCol r "tpep_dropoff_datetime" with
  | some p, some d => some ((d - p) / 60)
  | _, _ => none

/-- Row effect of df[trip_duration_minutes] = ... (line 73). -/
def setDur (r : Row) : Row :=
  setCol r "trip_duration_minutes" (durationOf r)

/-- The outlier filter at line 78:
df[(df[trip_duration_minutes] >= 1) & (df[trip_duration_minutes] <= 120)]. -/
def durOk (r : Row) : Bool :=
  optGe (lookupCol r "trip_duration_minutes") 1 &&
    optLe (lookupCol r "trip_duration_minutes") 120

/-- The fixed ordered allow-list final_columns of process_data.py. -/
def final_columns : List String :=
  ["vendorid", "tpep_pickup_datetime", "tpep_dropoff_datetime", "passenger_count",
   "trip_distance", "ratecodeid", "pulocationid", "dolocationid", "payment_type",
   "fare_amount", "extra", "mta_tax", "tip_amount", "tolls_amount",
   "improvement_surcharge", "total_amount", "congestion_surcharge", "airport_fee",
   "trip_duration_minutes"]

/-- Restriction of a row to the given columns, in that order (df[[cols]]). -/
def projectRow (cols : List String) (r : Row) : Row :=
  cols.map (fun c => (c, lookupCol r c))

/-- Validity-filter stage, parameterized by profile; the source pipeline is
the alternate instance. -/
def validityFilterP (p : FilterProfile) (df : DataFrame) : DataFrame :=
  { df with rows := df.rows.filter (validRowProfile p) }

/-- Type normalization (lines 71 to 72): pd.to_datetime on the two timestamp
columns.  On the rational-epoch-seconds representation this is the identity
(an already-typed value parses to itself and a null stays null). -/
def parseTimestamps (df : DataFrame) : DataFrame := df

/-- Schema effect of assigning a possibly-new column. -/
def ensureColumn (cols : List String) (c : String) : List String :=
  if c ∈ cols then cols else cols ++ [c]

/-- Derivation stage (line 73): add the trip_duration_minutes column. -/
def addDuration (df : DataFrame) : DataFrame :=
  { columns := ensureColumn df.columns "trip_duration_minutes",
    rows := df.rows.map setDur }

/-- Outlier-filter stage (line 78). -/
def outlierFilter (df : DataFrame) : DataFrame :=
  { df with rows := df.rows.filter durOk }

/-- Column-projection stage (lines 82 to 90):
df[[col for col in final_columns if col in df.columns]]. -/
def projectColumns (df : DataFrame) : DataFrame :=
  let cols := final_columns.filter (fun c => decide (c ∈ df.columns))
  { columns := cols, rows := df.rows.map (projectRow cols) }

/-- The five transformation stages of main, as named steps. -/
inductive Step where
  | validity
  | typeNormalization
  | derivation
  | outlier
  | projection
deriving DecidableEq, Repr

/-- Semantics of one step. -/
def applyStep (p : FilterProfile) : Step → DataFrame → DataFrame
  | .validity, df => validityFilterP p df
  | .typeNormalization, df => parseTimestamps df
  | .derivation, df => addDuration df
  | .outlier, df => outlierFilter df
  | .projection, df => projectColumns df

/-- The steps of main in source order: the validity filter at line 68 runs
before the to_datetime normalization at lines 71 to 72, then derivation
(line 73), outlier filter (line 78) and projection (lines 82 to 90). -/
def pipelineSteps : List Step :=
  [.validity, .typeNormalization, .derivation, .outlier, .projection]

/-- The transform stage of main: fold the steps over the input dataframe. -/
def pipelineP (p : FilterProfile) (df : DataFrame) : DataFrame :=
  pipelineSteps.foldl (fun d s => applyStep p s d) df

/-- The pipeline exactly as written in process_data.py (alternate profile). -/
def pipeline (df : DataFrame) : DataFrame :=
  pipelineP .alternate df

/-- Overall retention predicate on an input row: it passes the validity
filter and its derived duration passes the outlier filter. -/
def retainedP (p : FilterProfile) (r : Row) : Bool :=
  validRowProfile p r && durOk (setDur r)

/-- The projection columns the pipeline ends with: the allow-list restricted
to the post-derivation schema. -/
def projCols (df : DataFrame) : List String :=
  final_columns.filter
    (fun c => decide (c ∈ ensureColumn df.columns "trip_duration_minutes"))

example : validRow [("trip_distance", some 2), ("fare_amount", some 10)] = true := by
  decide

example : validRow [("trip_distance", none), ("fare_amount", some 10)] = false := by
  decide

example :
    durationOf [("tpep_pickup_datetime", some 0), ("tpep_dropoff_datetime", some 3600)] =
      some 60 := by
  simp [durationOf, lookupCol]
  norm_num

example :
    (projectColumns { columns := ["fare_amount", "foo", "trip_distance"], rows := [] }).columns =
      ["trip_distance", "fare_amount"] := by
  decide

/-! ## Source locator and run skeleton of main -/

/-- Outputs section of the Terraform state file, as read by
get_bucket_names_from_tfstate; a none field models a missing output key
(KeyError in the source). -/
structure TfOutputs where
  raw_data_bucket_name : Option String
  processed_data_bucket_name : Option String
deriving DecidableEq, Repr

/-- Embedding of get_bucket_names_from_tfstate: a missing file
(FileNotFoundError) or a missing output key (KeyError) is caught and
reported, and the function returns the pair (None, None). -/
def get_bucket_names_from_tfstate (tfstate : Option TfOutputs) :
    Option String × Option String :=
  match tfstate with
  | none => (none, none)
  | some o =>
    match o.raw_data_bucket_name, o.processed_data_bucket_name with
    | some r, some p => (some r, some p)
    | _, _ => (none, none)

/-- One object of the raw-bucket listing, with its LastModified stamp as a
rational epoch time. -/
structure S3Object where
  key : String
  lastModified : ℚ
deriving DecidableEq, Repr

/-- Python max(objects, key = lambda x : x.LastModified): the first object
whose stamp no later object strictly exceeds; none on an empty listing. -/
def latestObject : List S3Object → Option S3Object
  | [] => none
  | o :: os => some (os.foldl (fun best x => if best.lastModified < x.lastModified then x else best) o)

/-- Process environment and external world of one run.  The two bucket-name
variables are carried so that claims about them can be stated; the source
never reads them (the os.environ.get calls are commented out in main). -/
structure Env where
  awsExecutionEnv : Bool
  rawBucketNameVar : Option String
  processedBucketNameVar : Option String
  tfstate : Option TfOutputs
  rawObjects : List S3Object
  readResult : Except String DataFrame
  writeSucceeds : Bool

/-- Python truthiness of an optional bucket name: None and the empty string
are falsy (the test if not raw_bucket or not processed_bucket). -/
def truthy (x : Option String) : Bool :=
  match x with
  | none => false
  | some s => !s.isEmpty

/-- Bucket resolution of main in the local (non-cloud) branch: read the
tfstate fallback and require both names truthy. -/
def resolveBuckets (env : Env) : Option (String × String) :=
  match get_bucket_names_from_tfstate env.tfstate with
  | (some r, some p) => if r.isEmpty || p.isEmpty then none else some (r, p)
  | _ => none

/-- How a run of main ends when no exception escapes. -/
inductive Outcome where
  | cloudEnvExit
  | configUnresolved
  | emptySource
  | completed (inputPath outputPath : String) (written : DataFrame)
deriving DecidableEq, Repr

/-- The unhandled exceptions main can die with: pd.read_parquet and
df.to_parquet failures propagate. -/
inductive RunError where
  | readError (msg : String)
  | writeError
deriving DecidableEq, Repr

/-- Result of a clean run: its outcome and whether a write was attempted. -/
structure RunResult where
  outcome : Outcome
  writeAttempted : Bool
deriving DecidableEq, Repr

/-- Embedding of main (process_data.py lines 20 to 96): cloud-marker early
return, tfstate fallback, bucket truthiness check, raw-bucket listing with
latest-object selection, parquet read, the transformation pipeline, and the
parquet write to the trips/ subfolder of the processed bucket.  Lean
reserves the top-level name main, so the source's main is mainRun here. -/
def mainRun (env : Env) : Except RunError RunResult :=
  if env.awsExecutionEnv then
    .ok ⟨.cloudEnvExit, false⟩
  else
    match resolveBuckets env with
    | none => .ok ⟨.configUnresolved, false⟩
    | some (rawBucket, processedBucket) =>
      match latestObject env.rawObjects with
      | none => .ok ⟨.emptySource, false⟩
      | some obj =>
        let inputPath := "s3://" ++ rawBucket ++ "/" ++ obj.key
        let outputPath := "s3://" ++ processedBucket ++ "/trips/" ++ obj.key
        match env.readResult with
        | .error e => .error (.readError e)
        | .ok df =>
          if env.writeSucceeds then
            .ok ⟨.completed inputPath outputPath (pipeline df), true⟩
          else
            .error .writeError

/-! ## Concrete data used by the witness theorems -/

/-- A one-row input row: a valid one-hour trip. -/
def rW : Row :=
  [("passenger_count", some 1), ("trip_distance", some 2), ("fare_amount", some 10),
   ("tpep_pickup_datetime", some 0), ("tpep_dropoff_datetime", some 3600)]

/-- A one-row well-formed input dataset around rW. -/
def dfW : DataFrame :=
  { columns := ["passenger_count", "trip_distance", "fare_amount",
                "tpep_pickup_datetime", "tpep_dropoff_datetime"],
    rows := [rW] }

/-- A row with a null trip_distance, for the null-handling witness. -/
def rC5 : Row :=
  [("passenger_count", some 1), ("trip_distance", none), ("fare_amount", some 5),
   ("tpep_pickup_datetime", some 0), ("tpep_dropoff_datetime", some 3600)]

/-- Environment with no tfstate file: configuration cannot be resolved. -/
def envC7a : Env :=
  { awsExecutionEnv := false,
    rawBucketNameVar := none,
    processedBucketNameVar := none,
    tfstate := none,
    rawObjects := [],
    readResult := .ok { columns := [], rows := [] },
    writeSucceeds := true }

/-- Environment with resolvable buckets but an empty raw bucket. -/
def envC7b : Env :=
  { awsExecutionEnv := false,
    rawBucketNameVar := none,
    processedBucketNameVar := none,
    tfstate := some { raw_data_bucket_name := some "raw-bucket",
                      processed_data_bucket_name := some "processed-bucket" },
    rawObjects := [],
    readResult := .ok { columns := [], rows := [] },
    writeSucceeds := true }

/-- Environment where both bucket-name variables are set in the process
environment AND the tfstate names differ from them. -/
def envC8 : Env :=
  { awsExecutionEnv := false,
    rawBucketNameVar := some "env-raw",
    processedBucketNameVar := some "env-processed",
    tfstate := some { raw_data_bucket_name := some "tf-raw",
                      processed_data_bucket_name := some "tf-processed" },
    rawObjects := [{ key := "trips.parquet", lastModified := 0 }],
    readResult := .ok { columns := [], rows := [] },
    writeSucceeds := true }

/-! ## Structural lemmas about rows and stages -/

theorem lookupCol_setCol_same (r : Row) (c : String) (v : Option ℚ) :
    lookupCol (setCol r c v) c = v := by
  induction r with
  | nil => simp [setCol, lookupCol]
  | cons hd tl ih =>
    obtain ⟨c', v'⟩ := hd
    by_cases h : c' = c
    · simp [setCol, h, lookupCol]
    · simp [setCol, h, lookupCol, ih]

theorem lookupCol_setCol_other (r : Row) (c c' : String) (v : Option ℚ)
    (h : c' ≠ c) : lookupCol (setCol r c v) c' = lookupCol r c' := by
  have hcc : ¬ c = c' := fun hh => h hh.symm
  induction r with
  | nil => simp [setCol, lookupCol, hcc]
  | cons hd tl ih =>
    obtain ⟨c₀, v₀⟩ := hd
    by_cases h₀ : c₀ = c
    · subst h₀
      simp [setCol, lookupCol, hcc]
    · simp [setCol, h₀, lookupCol, ih]

theorem lookupCol_some_mem (r : Row) (c : String) (v : ℚ)
    (h : lookupCol r c = some v) : c ∈ r.map Prod.fst := by
  induction r with
  | nil => simp [lookupCol] at h
  | cons hd tl ih =>
    obtain ⟨c₀, v₀⟩ := hd
    by_cases h₀ : c₀ = c
    · simp [h₀]
    · simp only [lookupCol, if_neg h₀] at h
      simp only [List.map_cons]
      exact List.mem_cons_of_mem _ (ih h)

theorem lookupCol_eq_none_of_not_mem (r : Row) (c : String)
    (h : c ∉ r.map Prod.fst) : lookupCol r c = none := by
  induction r with
  | nil => simp [lookupCol]
  | cons hd tl ih =>
    obtain ⟨c₀, v₀⟩ := hd
    simp only [List.map_cons, List.mem_cons, not_or] at h
    have h₀ : ¬ c₀ = c := fun hh => h.1 hh.symm
    simp [lookupCol, h₀, ih h.2]

theorem keys_setCol (r : Row) (c : String) (v : Option ℚ) :
    (setCol r c v).map Prod.fst = ensureColumn (r.map Prod.fst) c := by
  induction r with
  | nil => simp [setCol, ensureColumn]
  | cons hd tl ih =>
    obtain ⟨c₀, v₀⟩ := hd
    by_cases h₀ : c₀ = c
    · subst h₀
      simp [setCol, ensureColumn]
    · have h₀' : ¬ c = c₀ := fun hh => h₀ hh.symm
      by_cases hm : c ∈ tl.map Prod.fst
      · simp [setCol, h₀, ensureColumn, hm, h₀', ih]
      · simp [setCol, h₀, ensureColumn, hm, h₀', ih]

theorem lookupCol_projectRow (cols : List String) (r : Row) (c : String) :
    lookupCol (projectRow cols r) c = if c ∈ cols then lookupCol r c else none := by
  induction cols with
  | nil => simp [projectRow, lookupCol]
  | cons c₀ cs ih =>
    by_cases h₀ : c₀ = c
    · subst h₀
      simp [projectRow, lookupCol]
    · have h₀' : ¬ c = c₀ := fun hh => h₀ hh.symm
      simp only [projectRow, List.map_cons] at ih ⊢
      simp [lookupCol, h₀, ih, h₀']

theorem keys_projectRow (cols : List String) (r : Row) :
    (projectRow cols r).map Prod.fst = cols := by
  rw [projectRow, List.map_map]
  have h : (Prod.fst ∘ fun c => ((c : String), lookupCol r c)) = id := rfl
  rw [h, List.map_id]

theorem setCol_eq_self (r : Row) (c : String) (v : Option ℚ)
    (hmem : c ∈ r.map Prod.fst) (hv : lookupCol r c = v) : setCol r c v = r := by
  induction r with
  | nil => simp at hmem
  | cons hd tl ih =>
    obtain ⟨c₀, v₀⟩ := hd
    by_cases h₀ : c₀ = c
    · subst h₀
      have hv' : v₀ = v := by simpa [lookupCol] using hv
      simp [setCol, hv']
    · have h₀' : ¬ c = c₀ := fun hh => h₀ hh.symm
      simp only [List.map_cons, List.mem_cons] at hmem
      rcases hmem with hc | hmem
      · exact absurd hc h₀'
      · simp only [lookupCol, if_neg h₀] at hv
        simp [setCol, h₀, ih hmem hv]

theorem map_id_of_mem {α : Type} (l : List α) (f : α → α)
    (h : ∀ x ∈ l, f x = x) : l.map f = l := by
  induction l with
  | nil => rfl
  | cons x xs ih =>
    simp only [List.map_cons, h x (by simp)]
    rw [ih (fun y hy => h y (by simp [hy]))]

theorem filter_map_filter {α β : Type} (l : List α) (f : α → β)
    (P : α → Bool) (Q : β → Bool) :
    ((l.filter P).map f).filter Q = (l.filter (fun x => P x && Q (f x))).map f := by
  induction l with
  | nil => rfl
  | cons x xs ih =>
    by_cases hP : P x
    · by_cases hQ : Q (f x)
      · simp [List.filter_cons, hP, hQ, ih]
      · simp [List.filter_cons, hP, hQ, ih]
    · simp [List.filter_cons, hP, ih]

theorem mem_ensureColumn_self (cols : List String) (c : String) :
    c ∈ ensureColumn cols c := by
  by_cases h : c ∈ cols <;> simp [ensureColumn, h]

theorem mem_ensureColumn_of_mem (cols : List String) (c c' : String)
    (h : c ∈ cols) : c ∈ ensureColumn cols c' := by
  by_cases h' : c' ∈ cols <;> simp [ensureColumn, h', h]

/-! ## Derived facts about setDur and the pipeline shape -/

theorem lookupCol_setDur_dur (r : Row) :
    lookupCol (setDur r) "trip_duration_minutes" = durationOf r :=
  lookupCol_setCol_same r "trip_duration_minutes" (durationOf r)

theorem lookupCol_setDur_other (r : Row) (c : String)
    (h : c ≠ "trip_duration_minutes") :
    lookupCol (setDur r) c = lookupCol r c :=
  lookupCol_setCol_other r "trip_duration_minutes" c (durationOf r) h

theorem durationOf_setDur (r : Row) : durationOf (setDur r) = durationOf r := by
  unfold durationOf
  rw [lookupCol_setDur_other r "tpep_pickup_datetime" (by decide),
      lookupCol_setDur_other r "tpep_dropoff_datetime" (by decide)]

theorem validRowProfile_setDur (p : FilterProfile) (r : Row) :
    validRowProfile p (setDur r) = validRowProfile p r := by
  cases p <;>
    simp [validRowProfile, validRow,
      lookupCol_setDur_other r "passenger_count" (by decide),
      lookupCol_setDur_other r "trip_distance" (by decide),
      lookupCol_setDur_other r "fare_amount" (by decide)]

theorem durOk_setDur (r : Row) :
    durOk (setDur r) = (optGe (durationOf r) 1 && optLe (durationOf r) 120) := by
  simp [durOk, lookupCol_setDur_dur]

theorem pipelineP_eq (p : FilterProfile) (df : DataFrame) :
    pipelineP p df =
      projectColumns (outlierFilter (addDuration (parseTimestamps (validityFilterP p df)))) :=
  rfl

theorem pipelineP_columns (p : FilterProfile) (df : DataFrame) :
    (pipelineP p df).columns = projCols df :=
  rfl

theorem pipelineP_rows (p : FilterProfile) (df : DataFrame) :
    (pipelineP p df).rows =
      (df.rows.filter (retainedP p)).map (fun r => projectRow (projCols df) (setDur r)) := by
  have h₁ : (pipelineP p df).rows =
      (((df.rows.filter (validRowProfile p)).map setDur).filter durOk).map
        (projectRow (projCols df)) := rfl
  rw [h₁, filter_map_filter]
  have h₂ : df.rows.filter (fun x => validRowProfile p x && durOk (setDur x)) =
      df.rows.filter (retainedP p) := by
    apply List.filter_congr
    intro x _
    rfl
  rw [h₂, List.map_map]
  rfl

theorem optGt_eq_true (x : Option ℚ) (b : ℚ) :
    optGt x b = true ↔ ∃ v, x = some v ∧ b < v := by
  cases x <;> simp [optGt]

theorem optGe_eq_true (x : Option ℚ) (b : ℚ) :
    optGe x b = true ↔ ∃ v, x = some v ∧ b ≤ v := by
  cases x <;> simp [optGe]

theorem optLe_eq_true (x : Option ℚ) (b : ℚ) :
    optLe x b = true ↔ ∃ v, x = some v ∧ v ≤ b := by
  cases x <;> simp [optLe]

/-- Keys of every row that reaches the projection stage, for a well-formed
input: the input schema plus the derived duration column. -/
theorem keys_preProjection (p : FilterProfile) (df : DataFrame) (hwf : df.Wf)
    (x : Row)
    (hx : x ∈ ((df.rows.filter (validRowProfile p)).map setDur).filter durOk) :
    x.map Prod.fst = ensureColumn df.columns "trip_duration_minutes" := by
  rw [List.mem_filter] at hx
  obtain ⟨hx, _⟩ := hx
  rw [List.mem_map] at hx
  obtain ⟨r, hr, rfl⟩ := hx
  rw [setDur, keys_setCol, hwf r (List.mem_of_mem_filter hr)]

theorem dur_mem_projCols (df : DataFrame) :
    "trip_duration_minutes" ∈ projCols df :=
  List.mem_filter.mpr ⟨by decide, by simp [mem_ensureColumn_self]⟩

/-- Projection onto projCols preserves the value of every allow-listed
column, for a row whose keys are the pre-projection schema. -/
theorem lookupCol_proj_preserve (df : DataFrame) (x : Row)
    (hk : x.map Prod.fst = ensureColumn df.columns "trip_duration_minutes")
    (c : String) (hc : c ∈ final_columns) :
    lookupCol (projectRow (projCols df) x) c = lookupCol x c := by
  rw [lookupCol_projectRow]
  by_cases hmem : c ∈ ensureColumn df.columns "trip_duration_minutes"
  · have hpos : c ∈ projCols df := by
      rw [projCols, List.mem_filter]
      exact ⟨hc, by simpa using hmem⟩
    rw [if_pos hpos]
  · have hneg : c ∉ projCols df := by
      intro hcc
      rw [projCols, List.mem_filter] at hcc
      exact hmem (by simpa using hcc.2)
    rw [if_neg hneg]
    rw [lookupCol_eq_none_of_not_mem x c (by rw [hk]; exact hmem)]

/-- Membership characterization of the pipeline output: exactly the retained
input rows, with the duration column set, projected onto the allow-list. -/
theorem mem_pipelineP (p : FilterProfile) (df : DataFrame) (r' : Row) :
    r' ∈ (pipelineP p df).rows ↔
      ∃ r, r ∈ df.rows ∧ validRowProfile p r = true ∧ durOk (setDur r) = true ∧
        r' = projectRow (projCols df) (setDur r) := by
  rw [pipelineP_rows]
  constructor
  · intro h
    rw [List.mem_map] at h
    obtain ⟨r, hr, rfl⟩ := h
    rw [List.mem_filter] at hr
    obtain ⟨hmem, hret⟩ := hr
    rw [retainedP, Bool.and_eq_true] at hret
    exact ⟨r, hmem, hret.1, hret.2, rfl⟩
  · rintro ⟨r, hmem, hvalid, hdur, rfl⟩
    rw [List.mem_map]
    refine ⟨r, List.mem_filter.mpr ⟨hmem, ?_⟩, rfl⟩
    rw [retainedP, Bool.and_eq_true]
    exact ⟨hvalid, hdur⟩

theorem durationOf_none_of_pickup_none (r : Row)
    (h : lookupCol r "tpep_pickup_datetime" = none) : durationOf r = none := by
  unfold durationOf
  rw [h]

theorem durationOf_none_of_dropoff_none (r : Row)
    (h : lookupCol r "tpep_dropoff_datetime" = none) : durationOf r = none := by
  unfold durationOf
  rw [h]
  cases hx : lookupCol r "tpep_pickup_datetime" <;> rfl

/-! ## Claim theorems -/

/-- C2: every row of the pipeline output carries a trip_duration_minutes
value q with 1 <= q <= 120, inclusive at both ends: the outlier filter
retains exactly such rows. -/
theorem C2_output_duration_bounds (p : FilterProfile) (df : DataFrame) (r : Row)
    (h : r ∈ (pipelineP p df).rows) :
    ∃ q, lookupCol r "trip_duration_minutes" = some q ∧ 1 ≤ q ∧ q ≤ 120 := by
  rw [mem_pipelineP] at h
  obtain ⟨r₀, -, -, hdur, rfl⟩ := h
  simp only [durOk, Bool.and_eq_true, optGe_eq_true, optLe_eq_true] at hdur
  obtain ⟨⟨v, hv, h1⟩, w, hw, h2⟩ := hdur
  have hvw : v = w := Option.some.inj (hv.symm.trans hw)
  subst hvw
  refine ⟨v, ?_, h1, h2⟩
  rw [lookupCol_projectRow, if_pos (dur_mem_projCols df)]
  exact hv

/-- C3: on every retained output row, the derived trip_duration_minutes
column equals (dropoff_time - pickup_time) expressed in minutes, with
fractional minutes preserved (exact rational arithmetic). -/
theorem C3_duration_consistent (p : FilterProfile) (df : DataFrame) (r : Row)
    (h : r ∈ (pipelineP p df).rows) (a b : ℚ)
    (hp : lookupCol r "tpep_pickup_datetime" = some a)
    (hd : lookupCol r "tpep_dropoff_datetime" = some b) :
    lookupCol r "trip_duration_minutes" = some ((b - a) / 60) := by
  rw [mem_pipelineP] at h
  obtain ⟨r₀, -, -, -, rfl⟩ := h
  rw [lookupCol_projectRow] at hp hd
  by_cases hpm : "tpep_pickup_datetime" ∈ projCols df
  · by_cases hdm : "tpep_dropoff_datetime" ∈ projCols df
    · rw [if_pos hpm] at hp
      rw [if_pos hdm] at hd
      rw [lookupCol_setDur_other r₀ "tpep_pickup_datetime" (by decide)] at hp
      rw [lookupCol_setDur_other r₀ "tpep_dropoff_datetime" (by decide)] at hd
      have hdo : durationOf r₀ = some ((b - a) / 60) := by
        unfold durationOf
        rw [hp, hd]
      rw [lookupCol_projectRow, if_pos (dur_mem_projCols df), lookupCol_setDur_dur, hdo]
    · rw [if_neg hdm] at hd
      cases hd
  · rw [if_neg hpm] at hp
    cases hp

/-- C4: the schema after column projection is exactly the ordered allow-list
final_columns intersected with the incoming schema, in allow-list order
(a sublist of final_columns); an allow-listed column absent from the input
contributes nothing (the stage is total, no error), and no column outside
the allow-list appears. -/
theorem C4_projection_schema (df : DataFrame) :
    (projectColumns df).columns.Sublist final_columns ∧
      ∀ c, c ∈ (projectColumns df).columns ↔ (c ∈ final_columns ∧ c ∈ df.columns) := by
  constructor
  · show (final_columns.filter (fun c => decide (c ∈ df.columns))).Sublist final_columns
    exact List.filter_sublist final_columns
  · intro c
    simp [projectColumns, List.mem_filter]

/-- C5: a row with a missing/null value in any filter-predicate column
(trip_distance or fare_amount for the validity filter, or either timestamp
from which trip_duration_minutes is derived) is excluded: its retention
predicate is false, and it is dropped at the filtering stage where the
comparison against null evaluates false (no error is raised: every stage is
a total function). -/
theorem C5_null_rows_excluded (df : DataFrame) (r : Row)
    (hnull : lookupCol r "trip_distance" = none ∨ lookupCol r "fare_amount" = none ∨
      lookupCol r "tpep_pickup_datetime" = none ∨
      lookupCol r "tpep_dropoff_datetime" = none) :
    retainedP FilterProfile.alternate r = false ∧
      (r ∉ (validityFilterP FilterProfile.alternate df).rows ∨
        setDur r ∉
          (outlierFilter (addDuration (parseTimestamps
            (validityFilterP FilterProfile.alternate df)))).rows) := by
  have hval : validRow r = false ∨ durOk (setDur r) = false := by
    rcases hnull with h | h | h | h
    · left
      simp [validRow, h, optGt]
    · left
      simp [validRow, h, optGt]
    · right
      rw [durOk_setDur, durationOf_none_of_pickup_none r h]
      rfl
    · right
      rw [durOk_setDur, durationOf_none_of_dropoff_none r h]
      rfl
  have hret : retainedP FilterProfile.alternate r = false := by
    rcases hval with h | h
    · have hvp : validRowProfile FilterProfile.alternate r = false := h
      simp [retainedP, hvp]
    · simp [retainedP, h]
  refine ⟨hret, ?_⟩
  rcases hval with h | h
  · left
    intro hmem
    have h3 : validRow r = true := (List.mem_filter.mp hmem).2
    exact Bool.false_ne_true (h.symm.trans h3)
  · right
    intro hmem
    have h2 : durOk (setDur r) = true := (List.mem_filter.mp hmem).2
    exact Bool.false_ne_true (h.symm.trans h2)

/-- C10: the pipeline output rows are exactly the retained input rows, in
their original relative order (the retained rows form a sublist of the
input), each with the duration column set and then projected; setting the
duration leaves every other column value unchanged, and the projection
leaves every projected column value unchanged.  No stage reorders,
duplicates, or rewrites rows. -/
theorem C10_row_provenance (p : FilterProfile) (df : DataFrame) :
    (pipelineP p df).rows =
        (df.rows.filter (retainedP p)).map (fun r => projectRow (projCols df) (setDur r)) ∧
      (df.rows.filter (retainedP p)).Sublist df.rows ∧
      (∀ r c, c ≠ "trip_duration_minutes" → lookupCol (setDur r) c = lookupCol r c) ∧
      (∀ r c, c ∈ projCols df → lookupCol (projectRow (projCols df) r) c = lookupCol r c) := by
  refine ⟨pipelineP_rows p df, List.filter_sublist df.rows,
    fun r c hc => lookupCol_setDur_other r c hc, fun r c hc => ?_⟩
  rw [lookupCol_projectRow, if_pos hc]

/-- C1: every row of the pipeline output satisfies the active validity
profile: trip_distance > 0 in both profiles, plus passenger_count > 0 in the
primary profile or fare_amount > 0 in the alternate profile; the two
variants are distinct named profiles (the FilterProfile parameter).  The
well-formedness hypothesis is the pandas schema invariant. -/
theorem C1_validity_profiles (p : FilterProfile) (df : DataFrame) (hwf : df.Wf)
    (r : Row) (h : r ∈ (pipelineP p df).rows) :
    (∃ q, lookupCol r "trip_distance" = some q ∧ 0 < q) ∧
      (match p with
       | .primary => ∃ q, lookupCol r "passenger_count" = some q ∧ 0 < q
       | .alternate => ∃ q, lookupCol r "fare_amount" = some q ∧ 0 < q) := by
  rw [mem_pipelineP] at h
  obtain ⟨r₀, hmem, hvalid, -, rfl⟩ := h
  have hkeys : (setDur r₀).map Prod.fst =
      ensureColumn df.columns "trip_duration_minutes" := by
    rw [setDur, keys_setCol, hwf r₀ hmem]
  have transfer : ∀ c : String, c ∈ final_columns → c ≠ "trip_duration_minutes" →
      optGt (lookupCol r₀ c) 0 = true →
      ∃ q, lookupCol (projectRow (projCols df) (setDur r₀)) c = some q ∧ 0 < q := by
    intro c hc hne hgt
    rw [optGt_eq_true] at hgt
    obtain ⟨q, hq, hpos⟩ := hgt
    refine ⟨q, ?_, hpos⟩
    rw [lookupCol_proj_preserve df (setDur r₀) hkeys c hc,
        lookupCol_setDur_other r₀ c hne, hq]
  cases p with
  | primary =>
    have hv : (optGt (lookupCol r₀ "passenger_count") 0 &&
        optGt (lookupCol r₀ "trip_distance") 0) = true := hvalid
    rw [Bool.and_eq_true] at hv
    exact ⟨transfer "trip_distance" (by decide) (by decide) hv.2,
      transfer "passenger_count" (by decide) (by decide) hv.1⟩
  | alternate =>
    have hv : (optGt (lookupCol r₀ "trip_distance") 0 &&
        optGt (lookupCol r₀ "fare_amount") 0) = true := hvalid
    rw [Bool.and_eq_true] at hv
    exact ⟨transfer "trip_distance" (by decide) (by decide) hv.1,
      transfer "fare_amount" (by decide) (by decide) hv.2⟩

/-- C6 counterexample: the steps of main are not in the order the claim
states; type normalization is not the first step. -/
theorem C6_counterexample :
    pipelineSteps ≠
      [Step.typeNormalization, Step.validity, Step.derivation, Step.outlier,
       Step.projection] := by
  decide

/-- C6 (amended): the pipeline executes validity filter first (line 68),
then type normalization (lines 71 to 72), duration derivation, outlier
filter, and column projection; timestamp parsing happens after the validity
filter, not before it.  The second conjunct grounds the step list in the
stage semantics. -/
theorem C6_step_order :
    pipelineSteps =
        [Step.validity, Step.typeNormalization, Step.derivation, Step.outlier,
         Step.projection] ∧
      ∀ (p : FilterProfile) (df : DataFrame),
        pipelineP p df =
          projectColumns (outlierFilter (addDuration (parseTimestamps
            (validityFilterP p df)))) :=
  ⟨rfl, fun _ _ => rfl⟩

/-- C7: configuration-unresolved and empty-source are soft stops: in a
non-cloud run, when bucket resolution fails the run ends with ok
configUnresolved, and when it succeeds but the raw bucket lists zero
objects the run ends with ok emptySource; in both cases no exception is
raised (the result is ok, not error) and no write is attempted. -/
theorem C7_soft_stops (env : Env) (hc : env.awsExecutionEnv = false) :
    (resolveBuckets env = none →
      mainRun env = .ok { outcome := .configUnresolved, writeAttempted := false }) ∧
    (resolveBuckets env ≠ none → env.rawObjects = [] →
      mainRun env = .ok { outcome := .emptySource, writeAttempted := false }) := by
  constructor
  · intro hr
    unfold mainRun
    rw [hc, hr]
    rfl
  · intro hr hobj
    cases hres : resolveBuckets env with
    | none => exact absurd hres hr
    | some rp =>
      obtain ⟨rb, pb⟩ := rp
      unfold mainRun
      rw [hc, hres, hobj]
      rfl

/-- C8 counterexample: with RAW_BUCKET_NAME / PROCESSED_BUCKET_NAME present
in the process environment and a tfstate carrying different names, the run
resolves the tfstate names, so the environment identifiers do not take
precedence and do not bypass the fallback. -/
theorem C8_counterexample :
    envC8.rawBucketNameVar = some "env-raw" ∧
      envC8.processedBucketNameVar = some "env-processed" ∧
      resolveBuckets envC8 = some ("tf-raw", "tf-processed") ∧
      resolveBuckets envC8 ≠ some ("env-raw", "env-processed") := by
  refine ⟨rfl, rfl, rfl, ?_⟩
  decide

/-- C8 (amended): the program never reads the bucket-name environment
variables (resolution is independent of them); when the cloud-execution
marker AWS_EXECUTION_ENV is set the run exits at once without resolving any
identifiers; otherwise the identifiers always come from the local tfstate
artifact under the keys raw_data_bucket_name and
processed_data_bucket_name. -/
theorem C8_env_vars_ignored (env : Env) :
    (∀ x y, resolveBuckets
        { env with rawBucketNameVar := x, processedBucketNameVar := y } =
      resolveBuckets env) ∧
    (env.awsExecutionEnv = true →
      mainRun env = .ok { outcome := .cloudEnvExit, writeAttempted := false }) ∧
    (∀ rb pb, env.tfstate = some { raw_data_bucket_name := some rb,
                                   processed_data_bucket_name := some pb } →
      rb.isEmpty = false → pb.isEmpty = false →
      resolveBuckets env = some (rb, pb)) := by
  refine ⟨fun x y => rfl, fun hc => ?_, fun rb pb ht hrb hpb => ?_⟩
  · unfold mainRun
    rw [hc]
    rfl
  · unfold resolveBuckets get_bucket_names_from_tfstate
    rw [ht]
    simp [hrb, hpb]

/-! ## Idempotence of the transform stage -/

theorem map_congr_mem {α β : Type} (l : List α) (f g : α → β)
    (h : ∀ x ∈ l, f x = g x) : l.map f = l.map g := by
  induction l with
  | nil => rfl
  | cons x xs ih =>
    simp only [List.map_cons, h x (by simp)]
    rw [ih (fun y hy => h y (by simp [hy]))]

theorem projectRow_idem (cols : List String) (r : Row) :
    projectRow cols (projectRow cols r) = projectRow cols r := by
  show cols.map (fun c => (c, lookupCol (projectRow cols r) c)) =
    cols.map (fun c => (c, lookupCol r c))
  apply map_congr_mem
  intro c hc
  rw [lookupCol_projectRow, if_pos hc]

theorem validRowProfile_proj (p : FilterProfile) (df : DataFrame) (x : Row)
    (hk : x.map Prod.fst = ensureColumn df.columns "trip_duration_minutes") :
    validRowProfile p (projectRow (projCols df) x) = validRowProfile p x := by
  cases p <;>
    simp only [validRowProfile, validRow,
      lookupCol_proj_preserve df x hk "passenger_count" (by decide),
      lookupCol_proj_preserve df x hk "trip_distance" (by decide),
      lookupCol_proj_preserve df x hk "fare_amount" (by decide)]

theorem durOk_proj (df : DataFrame) (x : Row)
    (hk : x.map Prod.fst = ensureColumn df.columns "trip_duration_minutes") :
    durOk (projectRow (projCols df) x) = durOk x := by
  simp only [durOk,
    lookupCol_proj_preserve df x hk "trip_duration_minutes" (by decide)]

theorem durationOf_proj (df : DataFrame) (x : Row)
    (hk : x.map Prod.fst = ensureColumn df.columns "trip_duration_minutes") :
    durationOf (projectRow (projCols df) x) = durationOf x := by
  unfold durationOf
  rw [lookupCol_proj_preserve df x hk "tpep_pickup_datetime" (by decide),
      lookupCol_proj_preserve df x hk "tpep_dropoff_datetime" (by decide)]

theorem projCols_pipelineP (p : FilterProfile) (df : DataFrame) :
    projCols (pipelineP p df) = projCols df := by
  have h0 : projCols (pipelineP p df) =
      final_columns.filter
        (fun c => decide (c ∈ ensureColumn (projCols df) "trip_duration_minutes")) := by
    rw [projCols, pipelineP_columns]
  have h1 : ensureColumn (projCols df) "trip_duration_minutes" = projCols df := by
    rw [ensureColumn, if_pos (dur_mem_projCols df)]
  rw [h0, h1, projCols]
  apply List.filter_congr
  intro c hc
  rw [decide_eq_decide, List.mem_filter]
  simp [hc]

theorem DataFrame.ext_cols_rows (a b : DataFrame) (h1 : a.columns = b.columns)
    (h2 : a.rows = b.rows) : a = b := by
  cases a
  cases b
  simp_all

/-- Per-row stability of the pipeline output under each stage, for a
well-formed input. -/
theorem output_row_stable (p : FilterProfile) (df : DataFrame) (hwf : df.Wf)
    (y : Row) (hy : y ∈ (pipelineP p df).rows) :
    validRowProfile p y = true ∧ setDur y = y ∧ durOk y = true ∧
      projectRow (projCols df) y = y := by
  rw [mem_pipelineP] at hy
  obtain ⟨r, hr, hvalid, hdur, rfl⟩ := hy
  have hkeys : (setDur r).map Prod.fst =
      ensureColumn df.columns "trip_duration_minutes" := by
    rw [setDur, keys_setCol, hwf r hr]
  refine ⟨?_, ?_, ?_, projectRow_idem _ _⟩
  · rw [validRowProfile_proj p df _ hkeys, validRowProfile_setDur]
    exact hvalid
  · have hdury : lookupCol (projectRow (projCols df) (setDur r))
        "trip_duration_minutes" = durationOf r := by
      rw [lookupCol_proj_preserve df _ hkeys _ (by decide), lookupCol_setDur_dur]
    have hdureq : durationOf (projectRow (projCols df) (setDur r)) =
        durationOf r := by
      rw [durationOf_proj df _ hkeys, durationOf_setDur]
    rw [setDur]
    apply setCol_eq_self
    · rw [keys_projectRow]
      exact dur_mem_projCols df
    · rw [hdury, hdureq]
  · rw [durOk_proj df _ hkeys]
    exact hdur

/-- C9: the pure transform stage is idempotent: applying the pipeline to its
own output yields the identical dataframe, for any well-formed input (the
pandas schema invariant). -/
theorem C9_pipeline_idempotent (p : FilterProfile) (df : DataFrame)
    (hwf : df.Wf) : pipelineP p (pipelineP p df) = pipelineP p df := by
  have hrows2 : (pipelineP p (pipelineP p df)).rows = (pipelineP p df).rows := by
    rw [pipelineP_rows p (pipelineP p df)]
    have hfilter : (pipelineP p df).rows.filter (retainedP p) =
        (pipelineP p df).rows := by
      rw [List.filter_eq_self]
      intro y hy
      obtain ⟨ha, hc, hb, -⟩ := output_row_stable p df hwf y hy
      simp [retainedP, ha, hc, hb]
    rw [hfilter, projCols_pipelineP]
    apply map_id_of_mem
    intro y hy
    obtain ⟨-, hc, -, hd⟩ := output_row_stable p df hwf y hy
    rw [hc, hd]
  have hcols2 : (pipelineP p (pipelineP p df)).columns =
      (pipelineP p df).columns := by
    rw [pipelineP_columns p (pipelineP p df), projCols_pipelineP, pipelineP_columns]
  exact DataFrame.ext_cols_rows _ _ hcols2 hrows2

/-! ## Witnesses -/

theorem durationOf_rW : durationOf rW = some 60 := by
  simp [durationOf, rW, lookupCol]
  norm_num

theorem durOk_rW : durOk (setDur rW) = true := by
  rw [durOk_setDur, durationOf_rW]
  decide

/-- Witness for C1: the concrete one-row dataset, primary profile. -/
theorem C1_witness :
    (∃ q, lookupCol (projectRow (projCols dfW) (setDur rW)) "trip_distance" =
        some q ∧ 0 < q) ∧
      (∃ q, lookupCol (projectRow (projCols dfW) (setDur rW)) "passenger_count" =
        some q ∧ 0 < q) :=
  C1_validity_profiles FilterProfile.primary dfW (by decide) _
    ((mem_pipelineP FilterProfile.primary dfW _).mpr
      ⟨rW, by decide, by decide, durOk_rW, rfl⟩)

/-- Witness for C2: the sixty-minute trip lands inside the bounds. -/
theorem C2_witness :
    ∃ q, lookupCol (projectRow (projCols dfW) (setDur rW)) "trip_duration_minutes" =
      some q ∧ 1 ≤ q ∧ q ≤ 120 :=
  C2_output_duration_bounds FilterProfile.alternate dfW _
    ((mem_pipelineP FilterProfile.alternate dfW _).mpr
      ⟨rW, by decide, by decide, durOk_rW, rfl⟩)

/-- Witness for C3: the derived duration of the concrete retained row. -/
theorem C3_witness :
    lookupCol (projectRow (projCols dfW) (setDur rW)) "trip_duration_minutes" =
      some (((3600 : ℚ) - 0) / 60) :=
  C3_duration_consistent FilterProfile.alternate dfW _
    ((mem_pipelineP FilterProfile.alternate dfW _).mpr
      ⟨rW, by decide, by decide, durOk_rW, rfl⟩)
    0 3600 (by decide) (by decide)

/-- Witness for C5: the null-trip_distance row is excluded. -/
theorem C5_witness :
    retainedP FilterProfile.alternate rC5 = false ∧
      (rC5 ∉ (validityFilterP FilterProfile.alternate dfW).rows ∨
        setDur rC5 ∉
          (outlierFilter (addDuration (parseTimestamps
            (validityFilterP FilterProfile.alternate dfW)))).rows) :=
  C5_null_rows_excluded dfW rC5 (Or.inl (by decide))

/-- Witness for C7: both soft stops realized on concrete environments. -/
theorem C7_witness :
    mainRun envC7a = .ok { outcome := .configUnresolved, writeAttempted := false } ∧
      mainRun envC7b = .ok { outcome := .emptySource, writeAttempted := false } :=
  ⟨(C7_soft_stops envC7a rfl).1 rfl,
   (C7_soft_stops envC7b rfl).2 (by decide) rfl⟩

/-- Witness for the amended C8 on concrete environments. -/
theorem C8_witness :
    resolveBuckets
        { envC8 with rawBucketNameVar := none, processedBucketNameVar := none } =
      resolveBuckets envC8 ∧
    mainRun { envC8 with awsExecutionEnv := true } =
      .ok { outcome := .cloudEnvExit, writeAttempted := false } ∧
    resolveBuckets envC8 = some ("tf-raw", "tf-processed") :=
  ⟨(C8_env_vars_ignored envC8).1 none none,
   (C8_env_vars_ignored { envC8 with awsExecutionEnv := true }).2.1 rfl,
   (C8_env_vars_ignored envC8).2.2 "tf-raw" "tf-processed" rfl rfl rfl⟩

/-- Witness for C9: idempotence on the concrete one-row dataset. -/
theorem C9_witness :
    pipelineP FilterProfile.alternate (pipelineP FilterProfile.alternate dfW) =
      pipelineP FilterProfile.alternate dfW :=
  C9_pipeline_idempotent FilterProfile.alternate dfW (by decide)

/-- Witness for C10: setting the duration leaves fare_amount unchanged. -/
theorem C10_witness :
    lookupCol (setDur rW) "fare_amount" = lookupCol rW "fare_amount" :=
  (C10_row_provenance FilterProfile.alternate dfW).2.2.1 rW "fare_amount" (by decide)
